import Mathlib

/-!
Verification of the CareerCraft interview-orchestration and resume-analysis
logic. The data model follows src/types.ts; the LLM client follows
src/services/geminiService.ts, where each remote operation is modelled by the
outcome of its `generateContent` call plus JSON parse (network failure,
malformed response, or a parsed value) and the surrounding try/catch that
rewrites every failure to a fixed per-operation message. The interview state
machine follows src/views/InterviewSimulator.tsx (the text-turn variant with
the explicit `questionCount` counter): its handlers become pure functions of
the component state and the remote outcome, and user interaction becomes a
step function over events that are available exactly where the corresponding
control is rendered.
-/

namespace CareerCraft

/-- Message author, from the `role` field of `InterviewMessage` in src/types.ts. -/
inductive Role where
  | user
  | model
deriving DecidableEq

/-- Per-answer feedback record, from `InterviewFeedback` in src/types.ts. -/
structure InterviewFeedback where
  clarity : String
  confidence : String
  relevance : String
deriving DecidableEq

/-- Transcript entry, from `InterviewMessage` in src/types.ts; `feedback` is
optional there and absent when a message is created. -/
structure InterviewMessage where
  role : Role
  content : String
  feedback : Option InterviewFeedback := none
deriving DecidableEq

/-- Final summary, from `InterviewSummary` in src/types.ts. -/
structure InterviewSummary where
  overallScore : Int
  strengths : List String
  areasForImprovement : List String
deriving DecidableEq

/-- Resume analysis result, from `ResumeAnalysisResult` in src/types.ts. -/
structure ResumeAnalysisResult where
  score : Int
  strengths : List String
  weaknesses : List String
  atsKeywords : List String
  actionableImprovements : List String
deriving DecidableEq

/-- Structured result of `getNextInterviewStep` in src/services/geminiService.ts:
the `interviewFeedbackSchema` object with `feedback` and `nextQuestion`. -/
structure NextStep where
  feedback : InterviewFeedback
  nextQuestion : String
deriving DecidableEq

/-- Outcome of one `ai.models.generateContent` call followed by `JSON.parse`:
the remote call can throw (network, quota, auth), the parse can throw on a
malformed body, or a value of the declared schema shape is produced. -/
inductive GenOutcome (α : Type) where
  | remoteError (detail : String)
  | malformedResponse (detail : String)
  | parsed (value : α)
deriving DecidableEq

/-- The `analyzeResume` wrapper of src/services/geminiService.ts: any failure
inside the try block is caught and rethrown with one fixed message. -/
def analyzeResume (outcome : GenOutcome ResumeAnalysisResult) :
    Except String ResumeAnalysisResult :=
  match outcome with
  | .remoteError _ => .error "Failed to get analysis from AI. Please try again."
  | .malformedResponse _ => .error "Failed to get analysis from AI. Please try again."
  | .parsed v => .ok v

/-- The `startInterview` wrapper of src/services/geminiService.ts: the call
returns free text (no JSON parse step), and any failure is caught and
rethrown with one fixed message. -/
def startInterview (outcome : Except String String) : Except String String :=
  match outcome with
  | .error _ => .error "Failed to start the interview. Please try again."
  | .ok text => .ok text

/-- The `getNextInterviewStep` wrapper of src/services/geminiService.ts. -/
def getNextInterviewStep (outcome : GenOutcome NextStep) : Except String NextStep :=
  match outcome with
  | .remoteError _ => .error "Failed to get next question. Please try again."
  | .malformedResponse _ => .error "Failed to get next question. Please try again."
  | .parsed v => .ok v

/-- The `getInterviewSummary` wrapper of src/services/geminiService.ts. -/
def getInterviewSummary (outcome : GenOutcome InterviewSummary) :
    Except String InterviewSummary :=
  match outcome with
  | .remoteError _ => .error "Failed to get interview summary. Please try again."
  | .malformedResponse _ => .error "Failed to get interview summary. Please try again."
  | .parsed v => .ok v

/-- The interview phases of src/views/InterviewSimulator.tsx. -/
inductive InterviewPhase where
  | setup
  | live
  | summary
deriving DecidableEq

/-- The `totalQuestions` constant of src/views/InterviewSimulator.tsx. -/
def totalQuestions : Nat := 5

/-- The React state of the `InterviewSimulator` component, one field per
`useState` hook. -/
structure InterviewState where
  phase : InterviewPhase
  jobTitle : String
  companyName : String
  jobDescription : String
  history : List InterviewMessage
  currentAnswer : String
  isLoading : Bool
  error : Option String
  summary : Option InterviewSummary
  questionCount : Nat
deriving DecidableEq

/-- The initial component state: every `useState` initializer. -/
def initialState : InterviewState :=
  { phase := .setup
    jobTitle := ""
    companyName := ""
    jobDescription := ""
    history := []
    currentAnswer := ""
    isLoading := false
    error := none
    summary := none
    questionCount := 0 }

/-- Which remote operation a handler invoked, used to state that a code path
issues (or does not issue) a request. -/
inductive RemoteCall where
  | startRequest
  | nextStepRequest
  | summaryRequest
  | analyzeRequest
deriving DecidableEq

/-- The `handleStartInterview` handler: empty job title short-circuits with a
local error; otherwise the start request fires and on success the phase
becomes `live` with the first model question as the whole transcript and
`questionCount` one, while on failure only the error is set. The second
component lists the remote calls issued. -/
def handleStartInterview (s : InterviewState) (outcome : Except String String) :
    InterviewState × List RemoteCall :=
  if s.jobTitle = "" then
    ({ s with error := some "Please enter a job title to begin." }, [])
  else
    match outcome with
    | .ok firstQuestion =>
        ({ s with
            error := none
            history := [{ role := .model, content := firstQuestion }]
            phase := .live
            questionCount := 1
            isLoading := false }, [RemoteCall.startRequest])
    | .error e =>
        ({ s with error := some e, isLoading := false }, [RemoteCall.startRequest])

/-- The character class JavaScript's `String.prototype.trim` strips: the
WhiteSpace and LineTerminator productions of the ECMAScript grammar. -/
def isJsWhitespace (c : Char) : Bool :=
  c = ' ' || c = '\t' || c = '\n' || c = '\r' || c = '\x0b' || c = '\x0c' ||
  c = '\u00a0' || c = '\u1680' || ('\u2000' ≤ c && c ≤ '\u200a') ||
  c = '\u2028' || c = '\u2029' || c = '\u202f' || c = '\u205f' ||
  c = '\u3000' || c = '\ufeff'

/-- JavaScript's `String.prototype.trim`: strip leading and trailing
whitespace. -/
def jsTrim (s : String) : String :=
  ⟨((s.data.dropWhile isJsWhitespace).reverse.dropWhile isJsWhitespace).reverse⟩

/-- The `setHistory` updater run on a successful next-step response: mutate
the last message's feedback when that message is user-authored. -/
def attachFeedbackToLast (h : List InterviewMessage) (fb : InterviewFeedback) :
    List InterviewMessage :=
  match h.getLast? with
  | none => h
  | some lastUserMessage =>
      if lastUserMessage.role = .user then
        h.dropLast ++ [{ lastUserMessage with feedback := some fb }]
      else h

/-- The `handleAnswerSubmit` handler. A blank (whitespace-only) answer
returns before any state change or request. Otherwise the user message is
appended and the draft cleared; with `questionCount` at the budget the
summary request fires (success: store summary and move to `summary`;
failure: set the error and drop the just-appended user message), and below
the budget the next-step request fires (success: attach feedback to the last
user message, append the next question, bump the counter; failure: set the
error and drop the just-appended user message). -/
def handleAnswerSubmit (s : InterviewState) (stepOutcome : Except String NextStep)
    (summaryOutcome : Except String InterviewSummary) :
    InterviewState × List RemoteCall :=
  if jsTrim s.currentAnswer = "" then (s, [])
  else if totalQuestions ≤ s.questionCount then
    match summaryOutcome with
    | .ok summaryResult =>
        ({ s with
            history := s.history ++ [{ role := .user, content := s.currentAnswer }]
            currentAnswer := ""
            summary := some summaryResult
            phase := .summary
            isLoading := false }, [RemoteCall.summaryRequest])
    | .error e =>
        ({ s with
            history := (s.history ++ [({ role := .user, content := s.currentAnswer } : InterviewMessage)]).dropLast
            currentAnswer := ""
            error := some e
            isLoading := false }, [RemoteCall.summaryRequest])
  else
    match stepOutcome with
    | .ok stepResult =>
        ({ s with
            history :=
              attachFeedbackToLast
                (s.history ++ [{ role := .user, content := s.currentAnswer }])
                stepResult.feedback
              ++ [{ role := .model, content := stepResult.nextQuestion }]
            currentAnswer := ""
            questionCount := s.questionCount + 1
            isLoading := false }, [RemoteCall.nextStepRequest])
    | .error e =>
        ({ s with
            history := (s.history ++ [({ role := .user, content := s.currentAnswer } : InterviewMessage)]).dropLast
            currentAnswer := ""
            error := some e
            isLoading := false }, [RemoteCall.nextStepRequest])

/-- The `resetInterview` handler: clear the session, keep the form fields. -/
def resetInterview (s : InterviewState) : InterviewState :=
  { s with
    history := []
    currentAnswer := ""
    isLoading := false
    error := none
    summary := none
    questionCount := 0
    phase := .setup }

/-- The `restartWithSameRole` handler: clear the session state (the phase is
left as it was) and run `handleStartInterview` with the retained job data. -/
def restartWithSameRole (s : InterviewState) (outcome : Except String String) :
    InterviewState × List RemoteCall :=
  handleStartInterview
    { s with
      history := []
      currentAnswer := ""
      isLoading := false
      error := none
      summary := none
      questionCount := 0 } outcome

/-- User interactions, each carrying the outcome of any remote call it fires. -/
inductive GEvent where
  | editJobTitle (t : String)
  | editCompanyName (t : String)
  | editJobDescription (t : String)
  | editAnswer (t : String)
  | start (outcome : Except String String)
  | answer (stepOutcome : Except String NextStep)
      (summaryOutcome : Except String InterviewSummary)
  | reset
  | restart (outcome : Except String String)

/-- One user interaction applied to the component state. Each event is live
exactly where its control is rendered: the job form and its submit in
`setup`, the answer box and its submit in `live`, the restart button in
`summary`, the reset buttons in `live` and `summary` (a reset from `setup`
leaves the state unchanged in effect, so it is allowed unconditionally). -/
def step (s : InterviewState) (e : GEvent) : InterviewState :=
  match e with
  | .editJobTitle t => if s.phase = .setup then { s with jobTitle := t } else s
  | .editCompanyName t => if s.phase = .setup then { s with companyName := t } else s
  | .editJobDescription t => if s.phase = .setup then { s with jobDescription := t } else s
  | .editAnswer t => if s.phase = .live then { s with currentAnswer := t } else s
  | .start outcome => if s.phase = .setup then (handleStartInterview s outcome).1 else s
  | .answer so su => if s.phase = .live then (handleAnswerSubmit s so su).1 else s
  | .reset => resetInterview s
  | .restart outcome => if s.phase = .summary then (restartWithSameRole s outcome).1 else s

/-- States a session can be in: the initial state and everything reachable
from it through user interactions. -/
inductive Reachable : InterviewState → Prop where
  | init : Reachable initialState
  | next : ∀ {s : InterviewState} (e : GEvent), Reachable s → Reachable (step s e)

/-- The author a strict model/user alternation expects after one message by
the given author. -/
def Role.flip : Role → Role
  | .user => .model
  | .model => .user

/-- Whether a transcript strictly alternates authors, the first message by
`r`, the next by the other author, and so on. -/
def alternatesFrom : Role → List InterviewMessage → Bool
  | _, [] => true
  | r, m :: t => decide (m.role = r) && alternatesFrom r.flip t

/-- The author expected after `n` alternating messages starting from `r`. -/
def roleAfter (r : Role) (n : Nat) : Role :=
  if n % 2 = 0 then r else r.flip

/-- No model-authored message carries an attached feedback record. -/
def modelNoFeedback (h : List InterviewMessage) : Prop :=
  ∀ m ∈ h, m.role = .model → m.feedback = none

/-- Every user-authored message carries a feedback record. -/
def usersHaveFeedback (h : List InterviewMessage) : Prop :=
  ∀ m ∈ h, m.role = .user → m.feedback.isSome = true

/-- Transcript shape once a summary has been produced: every user message
before the last transcript entry carries feedback, and the last entry, when
there is one, is the user answer that triggered the summary, with none. -/
def summaryShape (h : List InterviewMessage) : Prop :=
  (∀ m ∈ h.dropLast, m.role = .user → m.feedback.isSome = true) ∧
  (∀ m, h.getLast? = some m → m.role = .user ∧ m.feedback = none)

/-- The state invariant of the interview component: the question counter
stays within the budget, no request is in flight between interactions, model
messages never carry feedback, and per phase: `setup` has an empty session;
`live` has a transcript of `2 * questionCount - 1` strictly alternating
messages starting (and hence ending) with a model question, every user
message already graded; `summary` has the completed-transcript shape. -/
def Inv (s : InterviewState) : Prop :=
  s.questionCount ≤ totalQuestions ∧
  s.isLoading = false ∧
  modelNoFeedback s.history ∧
  (s.phase = .setup → s.history = [] ∧ s.questionCount = 0) ∧
  (s.phase = .live →
    alternatesFrom .model s.history = true ∧
    s.history.length + 1 = 2 * s.questionCount ∧
    1 ≤ s.questionCount ∧
    usersHaveFeedback s.history) ∧
  (s.phase = .summary → summaryShape s.history)

/-- The React state of the `ResumeAnalyzer` component of
src/views/ResumeAnalyzer.tsx, one field per `useState` hook. -/
structure ResumeState where
  resumeText : String
  jobTitle : String
  companyName : String
  jobDescription : String
  analysis : Option ResumeAnalysisResult
  isLoading : Bool
  error : Option String
  fileName : Option String
deriving DecidableEq

/-- The `handleSubmit` handler of src/views/ResumeAnalyzer.tsx: blank
(whitespace-only) resume text or job title short-circuits with a local
validation error before any request; otherwise the analyze request fires and
the result or the error (with the empty-message fallback of the catch
clause) is stored. -/
def resumeHandleSubmit (s : ResumeState) (outcome : Except String ResumeAnalysisResult) :
    ResumeState × List RemoteCall :=
  if jsTrim s.resumeText = "" ∨ jsTrim s.jobTitle = "" then
    ({ s with error := some "Please provide your resume text and a target job title." }, [])
  else
    match outcome with
    | .ok result =>
        ({ s with error := none, analysis := some result, isLoading := false },
          [RemoteCall.analyzeRequest])
    | .error e =>
        ({ s with
            analysis := none
            error := some (if e = "" then "An unexpected error occurred." else e)
            isLoading := false }, [RemoteCall.analyzeRequest])

/-- A setup-phase state with the job title filled in. -/
def setupState0 : InterviewState :=
  step initialState (.editJobTitle "Senior Product Manager")

/-- The live state after a successful start request. -/
def liveState0 : InterviewState :=
  step setupState0 (.start (.ok "Tell me about yourself."))

/-- The live state with a drafted answer. -/
def liveState1 : InterviewState :=
  step liveState0 (.editAnswer "My answer")

/-- The live state with a whitespace-only drafted answer. -/
def liveStateBlankAnswer : InterviewState :=
  step liveState0 (.editAnswer "   ")

/-- A resume form whose resume text is whitespace-only. -/
def blankResumeState : ResumeState :=
  { resumeText := "   "
    jobTitle := "Senior Product Manager"
    companyName := ""
    jobDescription := ""
    analysis := none
    isLoading := false
    error := none
    fileName := none }

/-- The per-turn feedback used by the five-answer scenario. -/
def scenarioFeedback : InterviewFeedback :=
  { clarity := "Clear.", confidence := "Confident.", relevance := "Relevant." }

/-- The five-answer scenario of the spec: the job title is entered, the
interview starts, and five answers are submitted with every remote call
succeeding; the summary request returns `finalSummary`. -/
def scenarioEvents (finalSummary : InterviewSummary) : List GEvent :=
  [ .editJobTitle "Senior Product Manager",
    .start (.ok "Question one"),
    .editAnswer "Answer one",
    .answer (.ok ⟨scenarioFeedback, "Question two"⟩) (.ok finalSummary),
    .editAnswer "Answer two",
    .answer (.ok ⟨scenarioFeedback, "Question three"⟩) (.ok finalSummary),
    .editAnswer "Answer three",
    .answer (.ok ⟨scenarioFeedback, "Question four"⟩) (.ok finalSummary),
    .editAnswer "Answer four",
    .answer (.ok ⟨scenarioFeedback, "Question five"⟩) (.ok finalSummary),
    .editAnswer "Answer five",
    .answer (.ok ⟨scenarioFeedback, "Question six"⟩) (.ok finalSummary) ]

/-- The state after the first `n` events of the five-answer scenario. -/
def runPrefix (finalSummary : InterviewSummary) (n : Nat) : InterviewState :=
  ((scenarioEvents finalSummary).take n).foldl (fun s e => step s e) initialState

/-- An in-range summary result for the five-answer scenario. -/
def goodSummary : InterviewSummary :=
  { overallScore := 87, strengths := ["Communication"], areasForImprovement := ["Brevity"] }

/-- A summary result whose score is out of the documented 0 to 100 range. -/
def overshootSummary : InterviewSummary :=
  { overallScore := 150, strengths := [], areasForImprovement := [] }

/-- The summary-phase state the five-answer scenario ends in. -/
def summaryState0 : InterviewState :=
  runPrefix goodSummary 12

theorem Role.flip_flip (r : Role) : r.flip.flip = r := by
  cases r <;> rfl

theorem alternatesFrom_append (xs ys : List InterviewMessage) (r : Role) :
    alternatesFrom r (xs ++ ys) =
      (alternatesFrom r xs && alternatesFrom (roleAfter r xs.length) ys) := by
  induction xs generalizing r with
  | nil => simp [alternatesFrom, roleAfter]
  | cons m t ih =>
      simp only [List.cons_append, alternatesFrom, List.length_cons, List.append_eq]
      rw [ih r.flip]
      have hrole : roleAfter r.flip t.length = roleAfter r (t.length + 1) := by
        rcases Nat.mod_two_eq_zero_or_one t.length with h | h
        · have h2 : (t.length + 1) % 2 = 1 := by omega
          simp [roleAfter, h, h2]
        · have h2 : (t.length + 1) % 2 = 0 := by omega
          simp [roleAfter, h, h2, Role.flip_flip]
      rw [hrole, Bool.and_assoc]

theorem attachFeedbackToLast_concat_user (h : List InterviewMessage) (c : String)
    (fb : InterviewFeedback) :
    attachFeedbackToLast (h ++ [{ role := .user, content := c }]) fb =
      h ++ [{ role := .user, content := c, feedback := some fb }] := by
  simp [attachFeedbackToLast, List.getLast?_concat, List.dropLast_concat]

theorem inv_initial : Inv initialState := by
  refine ⟨by simp [initialState, totalQuestions], rfl, ?_, ?_, ?_, ?_⟩
  · intro m hm
    simp [initialState] at hm
  · intro _
    exact ⟨rfl, rfl⟩
  · intro h
    simp [initialState] at h
  · intro h
    simp [initialState] at h

theorem inv_handleStart (s : InterviewState) (o : Except String String)
    (hh : s.history = []) (hq : s.questionCount = 0)
    (hload : s.isLoading = false) (hph : s.phase ≠ .live) :
    Inv (handleStartInterview s o).1 := by
  unfold handleStartInterview
  by_cases hjt : s.jobTitle = ""
  · rw [if_pos hjt]
    refine ⟨?_, hload, ?_, fun _ => ⟨hh, hq⟩, ?_, ?_⟩
    · simp [hq]
    · intro m hm
      rw [hh] at hm
      simp at hm
    · intro h
      exact absurd h hph
    · intro _
      refine ⟨?_, ?_⟩ <;> intro m hm <;> rw [hh] at hm <;> simp at hm
  · rw [if_neg hjt]
    cases o with
    | ok firstQuestion =>
        refine ⟨?_, rfl, ?_, ?_, ?_, ?_⟩
        · simp [totalQuestions]
        · intro m hm
          simp at hm
          subst hm
          intro _
          rfl
        · intro h
          simp at h
        · intro _
          refine ⟨rfl, rfl, Nat.le_refl 1, ?_⟩
          intro m hm
          simp at hm
          subst hm
          intro hrole
          exact Role.noConfusion hrole
        · intro h
          simp at h
    | error e =>
        refine ⟨?_, rfl, ?_, fun _ => ⟨hh, hq⟩, ?_, ?_⟩
        · simp [hq]
        · intro m hm
          rw [hh] at hm
          simp at hm
        · intro h
          exact absurd h hph
        · intro _
          refine ⟨?_, ?_⟩ <;> intro m hm <;> rw [hh] at hm <;> simp at hm

theorem inv_handleAnswer (s : InterviewState) (so : Except String NextStep)
    (su : Except String InterviewSummary) (hs : Inv s) (hl : s.phase = .live) :
    Inv (handleAnswerSubmit s so su).1 := by
  obtain ⟨hq5, hload, hmnf, hsetup, hlive, hsum⟩ := hs
  obtain ⟨halt, hlen, hq1, hufb⟩ := hlive hl
  unfold handleAnswerSubmit
  by_cases hca : jsTrim s.currentAnswer = ""
  · rw [if_pos hca]
    exact ⟨hq5, hload, hmnf, hsetup, fun _ => ⟨halt, hlen, hq1, hufb⟩, hsum⟩
  · rw [if_neg hca]
    by_cases hq : totalQuestions ≤ s.questionCount
    · rw [if_pos hq]
      split
      · refine ⟨hq5, rfl, ?_, ?_, ?_, ?_⟩
        · intro m hm hrole
          rcases List.mem_append.mp hm with h1 | h1
          · exact hmnf m h1 hrole
          · simp at h1
            subst h1
            exact Role.noConfusion hrole
        · intro h
          simp at h
        · intro h
          simp at h
        · intro _
          refine ⟨?_, ?_⟩
          · intro m hm hrole
            rw [List.dropLast_concat] at hm
            exact hufb m hm hrole
          · intro m hm
            rw [List.getLast?_concat] at hm
            injection hm with hm
            subst hm
            exact ⟨rfl, rfl⟩
      · simp only [List.dropLast_concat]
        refine ⟨hq5, rfl, hmnf, ?_, fun _ => ⟨halt, hlen, hq1, hufb⟩, ?_⟩
        · intro h
          simp [hl] at h
        · intro h
          simp [hl] at h
    · rw [if_neg hq]
      split
      · rw [attachFeedbackToLast_concat_user]
        refine ⟨Nat.succ_le_of_lt (Nat.lt_of_not_le hq), rfl, ?_, ?_, ?_, ?_⟩
        · intro m hm hrole
          rcases List.mem_append.mp hm with h1 | h1
          · rcases List.mem_append.mp h1 with h2 | h2
            · exact hmnf m h2 hrole
            · simp at h2
              subst h2
              exact Role.noConfusion hrole
          · simp at h1
            subst h1
            rfl
        · intro h
          simp [hl] at h
        · intro _
          have hodd : s.history.length % 2 = 1 := by omega
          refine ⟨?_, ?_, Nat.succ_le_succ (Nat.zero_le _), ?_⟩
          · rw [List.append_assoc, alternatesFrom_append, halt]
            simp [roleAfter, hodd, alternatesFrom, Role.flip]
          · simp only [List.length_append, List.length_cons, List.length_nil]
            omega
          · intro m hm hrole
            rcases List.mem_append.mp hm with h1 | h1
            · rcases List.mem_append.mp h1 with h2 | h2
              · exact hufb m h2 hrole
              · simp at h2
                subst h2
                rfl
            · simp at h1
              subst h1
              exact Role.noConfusion hrole
        · intro h
          simp [hl] at h
      · simp only [List.dropLast_concat]
        refine ⟨hq5, rfl, hmnf, ?_, fun _ => ⟨halt, hlen, hq1, hufb⟩, ?_⟩
        · intro h
          simp [hl] at h
        · intro h
          simp [hl] at h

theorem inv_reset (s : InterviewState) : Inv (resetInterview s) := by
  refine ⟨?_, rfl, ?_, fun _ => ⟨rfl, rfl⟩, ?_, ?_⟩
  · simp [resetInterview, totalQuestions]
  · intro m hm
    simp [resetInterview] at hm
  · intro h
    simp [resetInterview] at h
  · intro h
    simp [resetInterview] at h

theorem inv_step (s : InterviewState) (e : GEvent) (hs : Inv s) : Inv (step s e) := by
  cases e with
  | editJobTitle t =>
      simp only [step]
      split <;> exact hs
  | editCompanyName t =>
      simp only [step]
      split <;> exact hs
  | editJobDescription t =>
      simp only [step]
      split <;> exact hs
  | editAnswer t =>
      simp only [step]
      split <;> exact hs
  | start o =>
      simp only [step]
      split
      next h =>
        obtain ⟨hh, hq⟩ := hs.2.2.2.1 h
        exact inv_handleStart s o hh hq hs.2.1 (by simp [h])
      next h => exact hs
  | answer so su =>
      simp only [step]
      split
      next h => exact inv_handleAnswer s so su hs h
      next h => exact hs
  | reset =>
      simp only [step]
      exact inv_reset s
  | restart o =>
      simp only [step]
      split
      next h => exact inv_handleStart _ o rfl rfl rfl (by simp [h])
      next h => exact hs

theorem inv_reachable (s : InterviewState) (hr : Reachable s) : Inv s := by
  induction hr with
  | init => exact inv_initial
  | next e hr ih => exact inv_step _ e ih

theorem reachable_foldl (s : InterviewState) (es : List GEvent) (hr : Reachable s) :
    Reachable (es.foldl (fun s e => step s e) s) := by
  induction es generalizing s with
  | nil => exact hr
  | cons e t ih => exact ih (step s e) (Reachable.next e hr)

theorem reachable_setupState0 : Reachable setupState0 :=
  Reachable.next (.editJobTitle "Senior Product Manager") Reachable.init

theorem reachable_liveState0 : Reachable liveState0 :=
  Reachable.next (.start (.ok "Tell me about yourself.")) reachable_setupState0

theorem reachable_liveState1 : Reachable liveState1 :=
  Reachable.next (.editAnswer "My answer") reachable_liveState0

theorem reachable_summaryState0 : Reachable summaryState0 :=
  reachable_foldl initialState ((scenarioEvents goodSummary).take 12) Reachable.init

/-- C3: in every reachable session state no model-authored message in the
transcript carries a feedback record — feedback is only ever attached to
user messages — and in particular the transcript a successful start
transition installs is a single model message with no feedback. -/
theorem feedback_never_on_model_messages (s : InterviewState) (hr : Reachable s) :
    (∀ m ∈ s.history, m.role = .model → m.feedback = none) ∧
    (∀ q, s.jobTitle ≠ "" →
      (handleStartInterview s (.ok q)).1.history =
        [{ role := .model, content := q, feedback := none }]) := by
  refine ⟨(inv_reachable s hr).2.2.1, ?_⟩
  intro q hjt
  unfold handleStartInterview
  rw [if_neg hjt]

/-- Witness for C3 at the live state reached by a successful start. -/
theorem feedback_never_on_model_messages_witness :
    (∀ m ∈ liveState0.history, m.role = .model → m.feedback = none) ∧
    (∀ q, liveState0.jobTitle ≠ "" →
      (handleStartInterview liveState0 (.ok q)).1.history =
        [{ role := .model, content := q, feedback := none }]) :=
  feedback_never_on_model_messages liveState0 reachable_liveState0

/-- C4: once a reachable state is in the summary phase, every user message
before the last transcript entry carries exactly one feedback record, and
the last entry — the answer whose submission triggered the summary — is
user-authored and carries none. -/
theorem summary_feedback_coverage (s : InterviewState) (hr : Reachable s)
    (hp : s.phase = .summary) :
    (∀ m ∈ s.history.dropLast, m.role = .user → m.feedback.isSome = true) ∧
    (∀ m, s.history.getLast? = some m → m.role = .user ∧ m.feedback = none) :=
  (inv_reachable s hr).2.2.2.2.2 hp

/-- Witness for C4 at the summary state of the five-answer scenario. -/
theorem summary_feedback_coverage_witness :
    (∀ m ∈ summaryState0.history.dropLast, m.role = .user → m.feedback.isSome = true) ∧
    (∀ m, summaryState0.history.getLast? = some m → m.role = .user ∧ m.feedback = none) :=
  summary_feedback_coverage summaryState0 reachable_summaryState0 (by decide)

/-- C7: in every reachable live-phase state the transcript is nonempty and
strictly alternates model- and user-authored messages starting with a model
message. -/
theorem live_transcript_alternation (s : InterviewState) (hr : Reachable s)
    (hl : s.phase = .live) :
    alternatesFrom .model s.history = true ∧ s.history ≠ [] := by
  obtain ⟨halt, hlen, hq1, _⟩ := (inv_reachable s hr).2.2.2.2.1 hl
  refine ⟨halt, ?_⟩
  intro hnil
  rw [hnil] at hlen
  simp at hlen
  omega

/-- Witness for C7 at the live state reached by a successful start. -/
theorem live_transcript_alternation_witness :
    alternatesFrom .model liveState0.history = true ∧ liveState0.history ≠ [] :=
  live_transcript_alternation liveState0 reachable_liveState0 rfl

/-- C1: in every reachable state the question counter is at most the budget
of five; in the live phase a nonblank answer submission fires the summary
request exactly when the counter has reached five, and otherwise fires the
next-step request, whose success appends the next model question and
increments the counter by one. -/
theorem interview_question_budget (s : InterviewState) (hr : Reachable s)
    (hl : s.phase = .live) (ha : jsTrim s.currentAnswer ≠ "")
    (so : Except String NextStep) (su : Except String InterviewSummary) :
    s.questionCount ≤ totalQuestions ∧
    ((handleAnswerSubmit s so su).2 = [RemoteCall.summaryRequest] ↔
      s.questionCount = totalQuestions) ∧
    (s.questionCount ≠ totalQuestions →
      (handleAnswerSubmit s so su).2 = [RemoteCall.nextStepRequest] ∧
      (∀ r, so = .ok r →
        (handleAnswerSubmit s so su).1.questionCount = s.questionCount + 1 ∧
        (handleAnswerSubmit s so su).1.history.getLast? =
          some { role := .model, content := r.nextQuestion, feedback := none })) := by
  have hq5 := (inv_reachable s hr).1
  unfold handleAnswerSubmit
  rw [if_neg ha]
  by_cases hq : totalQuestions ≤ s.questionCount
  · have heq : s.questionCount = totalQuestions := Nat.le_antisymm hq5 hq
    rw [if_pos hq]
    refine ⟨hq5, ?_, fun hne => absurd heq hne⟩
    split
    · simp [heq]
    · simp [heq]
  · have hne : ¬ s.questionCount = totalQuestions := by omega
    rw [if_neg hq]
    refine ⟨hq5, ?_, ?_⟩
    · split
      · simp [hne]
      · simp [hne]
    · intro _
      split
      next r0 =>
        refine ⟨rfl, ?_⟩
        intro r hr2
        injection hr2 with hr2
        subst hr2
        exact ⟨rfl, List.getLast?_concat _⟩
      next e0 =>
        refine ⟨rfl, ?_⟩
        intro r hr2
        exact Except.noConfusion hr2

/-- Witness for C1 at the first live turn with a drafted answer. -/
theorem interview_question_budget_witness :
    liveState1.questionCount ≤ totalQuestions ∧
    ((handleAnswerSubmit liveState1 (.ok ⟨scenarioFeedback, "Question two"⟩)
        (.ok goodSummary)).2 = [RemoteCall.summaryRequest] ↔
      liveState1.questionCount = totalQuestions) :=
  ⟨(interview_question_budget liveState1 reachable_liveState1 rfl (by decide)
      (.ok ⟨scenarioFeedback, "Question two"⟩) (.ok goodSummary)).1,
   (interview_question_budget liveState1 reachable_liveState1 rfl (by decide)
      (.ok ⟨scenarioFeedback, "Question two"⟩) (.ok goodSummary)).2.1⟩

/-- C2 as stated is false: a failed submission does not leave the session
state exactly as it was apart from the surfaced error, because the drafted
answer is cleared when the user message is appended and is not restored by
the rollback. -/
theorem answer_failure_clears_draft :
    liveState1.currentAnswer = "My answer" ∧
    (step liveState1 (.answer (.error "Failed to get next question. Please try again.")
        (.error "Failed to get interview summary. Please try again."))).currentAnswer = "" ∧
    (step liveState1 (.answer (.error "Failed to get next question. Please try again.")
        (.error "Failed to get interview summary. Please try again."))).currentAnswer ≠
      liveState1.currentAnswer := by
  refine ⟨rfl, rfl, by decide⟩

/-- C2 (amended): a failed remote call during a nonblank answer submission
leaves the transcript (the just-appended user message is removed again), the
phase, the question count and the stored summary exactly as they were and
surfaces the error — but the drafted answer is cleared, not restored. -/
theorem answer_failure_rollback (s : InterviewState) (hr : Reachable s)
    (hl : s.phase = .live) (ha : jsTrim s.currentAnswer ≠ "")
    (so : Except String NextStep) (su : Except String InterviewSummary) (e : String)
    (hfail : (¬ totalQuestions ≤ s.questionCount ∧ so = .error e) ∨
             (totalQuestions ≤ s.questionCount ∧ su = .error e)) :
    (handleAnswerSubmit s so su).1 = { s with currentAnswer := "", error := some e } := by
  have hload := (inv_reachable s hr).2.1
  unfold handleAnswerSubmit
  rw [if_neg ha]
  rcases hfail with ⟨hq, hso⟩ | ⟨hq, hsu⟩
  · rw [if_neg hq]
    subst hso
    rw [List.dropLast_concat, hload]
  · rw [if_pos hq]
    subst hsu
    rw [List.dropLast_concat, hload]

/-- Witness for C2 (amended) at the first live turn with a drafted answer. -/
theorem answer_failure_rollback_witness :
    (handleAnswerSubmit liveState1
        (.error "Failed to get next question. Please try again.")
        (.ok goodSummary)).1 =
      { liveState1 with
          currentAnswer := ""
          error := some "Failed to get next question. Please try again." } :=
  answer_failure_rollback liveState1 reachable_liveState1 rfl (by decide)
    (.error "Failed to get next question. Please try again.") (.ok goodSummary)
    "Failed to get next question. Please try again." (Or.inl ⟨by decide, rfl⟩)

/-- C5 as stated is false at an out-of-range summary response: the code
stores whatever summary object the remote call returns without validating
its score, so the all-success five-answer scenario can end in the summary
phase with an overallScore of 150, outside the range 0 to 100. -/
theorem scenario_score_unvalidated :
    (runPrefix overshootSummary 12).phase = .summary ∧
    (runPrefix overshootSummary 12).summary = some overshootSummary ∧
    ¬ overshootSummary.overallScore ≤ 100 := by
  decide

/-- C5 (amended): in the five-answer all-success scenario (job title
entered, interview started, five answers submitted, the summary call
returning the score-87 `goodSummary`) the session moves from setup to live
after the first question with the counter at one, stays live through four
more turns that each attach feedback to the answer and append the next
question with the counter reaching five, and the fifth answer moves it to
summary storing exactly the summary object the remote call returned — whose
score 87 does lie in 0 to 100, though the code itself enforces no range. -/
theorem scenario_five_answers :
    (runPrefix goodSummary 1).phase = .setup ∧
    (runPrefix goodSummary 2).phase = .live ∧
    (runPrefix goodSummary 2).questionCount = 1 ∧
    (runPrefix goodSummary 4).phase = .live ∧
    (runPrefix goodSummary 4).questionCount = 2 ∧
    (runPrefix goodSummary 6).phase = .live ∧
    (runPrefix goodSummary 6).questionCount = 3 ∧
    (runPrefix goodSummary 8).phase = .live ∧
    (runPrefix goodSummary 8).questionCount = 4 ∧
    (runPrefix goodSummary 10).phase = .live ∧
    (runPrefix goodSummary 10).questionCount = 5 ∧
    (runPrefix goodSummary 12).phase = .summary ∧
    (runPrefix goodSummary 12).questionCount = 5 ∧
    (runPrefix goodSummary 12).summary = some goodSummary ∧
    (0 ≤ goodSummary.overallScore ∧ goodSummary.overallScore ≤ 100) ∧
    (runPrefix goodSummary 12).history =
      [ { role := .model, content := "Question one" },
        { role := .user, content := "Answer one", feedback := some scenarioFeedback },
        { role := .model, content := "Question two" },
        { role := .user, content := "Answer two", feedback := some scenarioFeedback },
        { role := .model, content := "Question three" },
        { role := .user, content := "Answer three", feedback := some scenarioFeedback },
        { role := .model, content := "Question four" },
        { role := .user, content := "Answer four", feedback := some scenarioFeedback },
        { role := .model, content := "Question five" },
        { role := .user, content := "Answer five", feedback := none } ] := by
  decide

/-- C6: a resume submission whose resume text or job title is empty or
whitespace-only issues no remote call and only sets the local validation
error; in particular the analysis state is unchanged. -/
theorem resume_validation_short_circuit (s : ResumeState)
    (outcome : Except String ResumeAnalysisResult)
    (hv : jsTrim s.resumeText = "" ∨ jsTrim s.jobTitle = "") :
    resumeHandleSubmit s outcome =
      ({ s with error := some "Please provide your resume text and a target job title." },
        []) ∧
    (resumeHandleSubmit s outcome).1.analysis = s.analysis := by
  unfold resumeHandleSubmit
  rw [if_pos hv]
  exact ⟨rfl, rfl⟩

/-- Witness for C6 at a whitespace-only resume text. -/
theorem resume_validation_short_circuit_witness :
    resumeHandleSubmit blankResumeState (.ok ⟨90, [], [], [], []⟩) =
      ({ blankResumeState with
          error := some "Please provide your resume text and a target job title." },
        []) ∧
    (resumeHandleSubmit blankResumeState (.ok ⟨90, [], [], [], []⟩)).1.analysis =
      blankResumeState.analysis :=
  resume_validation_short_circuit blankResumeState (.ok ⟨90, [], [], [], []⟩)
    (Or.inl (by decide))

/-- C8: with a job title present in the setup phase, a failing start request
leaves the phase `setup`, the transcript empty and the count zero, changing
only the surfaced error; only a successful request moves the phase to `live`
with the first question as the transcript and `questionCount` one. -/
theorem start_failure_keeps_setup (s : InterviewState) (hr : Reachable s)
    (hp : s.phase = .setup) (hjt : s.jobTitle ≠ "") :
    (∀ e, (handleStartInterview s (.error e)).1 = { s with error := some e } ∧
      (handleStartInterview s (.error e)).1.phase = .setup ∧
      (handleStartInterview s (.error e)).1.history = [] ∧
      (handleStartInterview s (.error e)).1.questionCount = 0 ∧
      (handleStartInterview s (.error e)).1.error = some e) ∧
    (∀ q, (handleStartInterview s (.ok q)).1.phase = .live ∧
      (handleStartInterview s (.ok q)).1.questionCount = 1 ∧
      (handleStartInterview s (.ok q)).1.history =
        [{ role := .model, content := q, feedback := none }] ∧
      (handleStartInterview s (.ok q)).1.error = none) := by
  have hinv := inv_reachable s hr
  obtain ⟨hh, hq⟩ := hinv.2.2.2.1 hp
  have hload := hinv.2.1
  constructor
  · intro e
    unfold handleStartInterview
    rw [if_neg hjt]
    refine ⟨?_, hp, hh, hq, rfl⟩
    rw [hload]
  · intro q
    unfold handleStartInterview
    rw [if_neg hjt]
    exact ⟨rfl, rfl, rfl, rfl⟩

/-- Witness for C8 at the setup state with the job title filled in. -/
theorem start_failure_keeps_setup_witness :
    (handleStartInterview setupState0
        (.error "Failed to start the interview. Please try again.")).1.phase = .setup ∧
    (handleStartInterview setupState0
        (.error "Failed to start the interview. Please try again.")).1.history = [] ∧
    (handleStartInterview setupState0 (.ok "Tell me about yourself.")).1.phase = .live ∧
    (handleStartInterview setupState0 (.ok "Tell me about yourself.")).1.questionCount = 1 :=
  ⟨((start_failure_keeps_setup setupState0 reachable_setupState0 rfl (by decide)).1
      "Failed to start the interview. Please try again.").2.1,
   ((start_failure_keeps_setup setupState0 reachable_setupState0 rfl (by decide)).1
      "Failed to start the interview. Please try again.").2.2.1,
   ((start_failure_keeps_setup setupState0 reachable_setupState0 rfl (by decide)).2
      "Tell me about yourself.").1,
   ((start_failure_keeps_setup setupState0 reachable_setupState0 rfl (by decide)).2
      "Tell me about yourself.").2.1⟩

/-- C9: every failure of an LLM-client operation — a remote error and a
malformed JSON response alike — surfaces to the caller as the operation's
single fixed retry-prompting message, so the two failure kinds are
indistinguishable at the caller. -/
theorem llm_errors_uniform :
    (∀ d : String,
      analyzeResume (.remoteError d) =
        .error "Failed to get analysis from AI. Please try again." ∧
      analyzeResume (.malformedResponse d) =
        .error "Failed to get analysis from AI. Please try again." ∧
      startInterview (.error d) =
        .error "Failed to start the interview. Please try again." ∧
      getNextInterviewStep (.remoteError d) =
        .error "Failed to get next question. Please try again." ∧
      getNextInterviewStep (.malformedResponse d) =
        .error "Failed to get next question. Please try again." ∧
      getInterviewSummary (.remoteError d) =
        .error "Failed to get interview summary. Please try again." ∧
      getInterviewSummary (.malformedResponse d) =
        .error "Failed to get interview summary. Please try again.") ∧
    (∀ d d2 : String,
      analyzeResume (.remoteError d) = analyzeResume (.malformedResponse d2) ∧
      getNextInterviewStep (.remoteError d) = getNextInterviewStep (.malformedResponse d2) ∧
      getInterviewSummary (.remoteError d) = getInterviewSummary (.malformedResponse d2)) :=
  ⟨fun _ => ⟨rfl, rfl, rfl, rfl, rfl, rfl, rfl⟩, fun _ _ => ⟨rfl, rfl, rfl⟩⟩

/-- C10: submitting a blank (empty or whitespace-only) answer is a complete
no-op — no remote call is issued and the whole component state, the
transcript, phase, question count, error and loading flag included, is
returned unchanged. -/
theorem empty_answer_submit_noop (s : InterviewState)
    (so : Except String NextStep) (su : Except String InterviewSummary)
    (ha : jsTrim s.currentAnswer = "") :
    handleAnswerSubmit s so su = (s, []) := by
  unfold handleAnswerSubmit
  rw [if_pos ha]

/-- Witness for C10 at a live state with a whitespace-only draft. -/
theorem empty_answer_submit_noop_witness :
    handleAnswerSubmit liveStateBlankAnswer (.ok ⟨scenarioFeedback, "Question two"⟩)
      (.ok goodSummary) = (liveStateBlankAnswer, []) :=
  empty_answer_submit_noop liveStateBlankAnswer (.ok ⟨scenarioFeedback, "Question two"⟩)
    (.ok goodSummary) (by decide)

end CareerCraft
